import Mathlib

/-!
Shallow embedding of the DermaSynth-VQA job dispatcher (`generate_VQA.py`) and
its API-handler collaborator (`src/gemini_api.py`), together with theorems
settling the specification claims about the work queue, the credential pool,
the worker loop's retry policy and the result persistence.

Modelling conventions:
- Python strings are `String`; list indices are `Nat`; the random draws of
  `random.random()` are explicit parameters `rb rc : ℚ` in `[0, 1)`.
- One iteration of the worker's `while True:` body is the function
  `worker_iteration`; filesystem existence checks are abstracted by a
  function `ex : String → Bool`, and the outcome of the `try` block
  (lines 142-158: image load, API call, file write) by an `Outcome` value.
- The side effects of an iteration are recorded as an ordered `Event` list:
  queue operations (`taskDone`, `putReq`), the completed API invocation and
  result write of the success path, the counter increment, and the two sleeps.
- `runQueueOps` replays the queue operations of a trace against the queue's
  count of unfinished tasks, returning `none` exactly when `task_done` is
  called with no unfinished task, which in `queue.Queue` raises `ValueError`.
-/

namespace DermaVQA

/-- One request record of the `api_requests` JSON file dequeued by workers:
the keys read by `call_gemini_api` and `worker_task` in `generate_VQA.py`. -/
structure Request where
  image_id : String
  image_path : String
  prompt : String
  image_primary_label : String
  image_secondary_label : String
deriving DecidableEq, Repr

/-- The API client of `src/gemini_api.py`: `GeminiAPIHandler.__init__` stores
the key and model name it was constructed from. -/
structure GeminiAPIHandler where
  api_key : String
  model_name : String
deriving DecidableEq, Repr

/-- The credential pool of `generate_VQA.py` (`class APIKeyManager`): the key
list, the single active key `api_key`, the round-robin cursor `key_index`,
and the shared model name. -/
structure APIKeyManager where
  api_keys : List String
  api_key : String
  key_index : Nat
  model_name : String
deriving DecidableEq, Repr

/-- `APIKeyManager.__init__(api_keys)` for the non-empty key list
`k0 :: rest`: the active key is set to `api_keys[0]`, the cursor to `0`,
and the model name to `"gemini-2.0-flash"`. -/
def APIKeyManager.init (k0 : String) (rest : List String) : APIKeyManager :=
  { api_keys := k0 :: rest
    api_key := k0
    key_index := 0
    model_name := "gemini-2.0-flash" }

/-- `APIKeyManager.get_next_api_key`: returns `api_keys[key_index]` and
advances the cursor to `(key_index + 1) % len(api_keys)`. -/
def APIKeyManager.get_next_api_key (m : APIKeyManager) : String × APIKeyManager :=
  (m.api_keys.getD m.key_index "",
   { m with key_index := (m.key_index + 1) % m.api_keys.length })

/-- `APIKeyManager.create_api_handler`: reads the active key field and mints
`GeminiAPIHandler(api_key=key, model_name=self.model_name)`; it does not
touch the cursor or the active key. -/
def APIKeyManager.create_api_handler (m : APIKeyManager) : GeminiAPIHandler :=
  { api_key := m.api_key, model_name := m.model_name }

/-- Python `pat.isPrefixOf`-style occurrence test: `containsSub s pat` is the
embedding of Python's substring operator `pat in s` for the character lists
of the two strings (non-empty `pat` in our uses). -/
def containsSub : List Char → List Char → Bool
  | [], pat => pat == []
  | c :: t, pat => pat.isPrefixOf (c :: t) || containsSub t pat

/-- Splits a character list on a separator character, the embedding of
Python `str.split(sep)` as used through `os.path.basename`. -/
def splitOnChar (sep : Char) : List Char → List (List Char)
  | [] => [[]]
  | c :: t =>
    if c = sep then [] :: splitOnChar sep t
    else
      match splitOnChar sep t with
      | [] => [[c]]
      | h :: rest => (c :: h) :: rest

/-- Fuel-driven replacement of every left-to-right non-overlapping occurrence
of `pat` by `rep`, the embedding of Python `str.replace` for non-empty
patterns; the fuel is the length of the scanned list. -/
def replaceAux (pat rep : List Char) : Nat → List Char → List Char
  | _, [] => []
  | 0, s => s
  | Nat.succ fuel, c :: t =>
    if pat.isPrefixOf (c :: t) then rep ++ replaceAux pat rep fuel ((c :: t).drop pat.length)
    else c :: replaceAux pat rep fuel t

/-- Python `s.replace(pat, rep)` for non-empty `pat`. -/
def strReplace (s pat rep : String) : String :=
  String.mk (replaceAux pat.data rep.data s.data.length s.data)

/-- `os.path.basename`: the component after the last `/`. -/
def basename (p : String) : String :=
  String.mk ((splitOnChar '/' p.data).getLastD p.data)

/-- Line 142 / line 240 of `generate_VQA.py`:
`os.path.basename(request.get("image_path")).replace(".jpg", "")`. -/
def image_id_of (image_path : String) : String :=
  strReplace (basename image_path) ".jpg" ""

/-- Line 143 / line 241: `Path(output_dir) / f"{image_id}_response.json"`. -/
def generated_response_file (output_dir image_id : String) : String :=
  output_dir ++ "/" ++ image_id ++ "_response.json"

/-- The result dictionary built by `call_gemini_api` (lines 98-106) and
serialized in full by `json.dump` on the success path. -/
structure ResultRecord where
  image_id : String
  image_path : String
  image_primary_label : String
  image_secondary_label : String
  api_response : String
  prompt : String
  model_name : String
deriving DecidableEq, Repr

/-- `call_gemini_api(api_handler, request)` with the text returned by the
external `generate_from_pil_image` call passed in as `api_response`. -/
def call_gemini_api (api_handler : GeminiAPIHandler) (request : Request)
    (api_response : String) : ResultRecord :=
  { image_id := request.image_id
    image_path := request.image_path
    image_primary_label := request.image_primary_label
    image_secondary_label := request.image_secondary_label
    api_response := api_response
    prompt := request.prompt
    model_name := api_handler.model_name }

/-- The fixed quota phrases of `worker_task` (lines 118-122). -/
def possible_errors : List String :=
  ["429 Quota exceeded for quota metric",
   "429 Resource has been exhausted",
   "429 RESOURCE_EXHAUSTED"]

/-- Line 173: `any(error in error_msg for error in possible_errors)`,
a case-sensitive substring match. -/
def isQuotaError (error_msg : String) : Bool :=
  possible_errors.any (fun e => containsSub error_msg.data e.data)

/-- Line 124: the fatal ceiling on consecutive non-quota errors. -/
def max_consecutive_errors : Nat := 100

/-- The outcome of one run of the `try` block of lines 142-158 after the
existence check: either the attempt succeeded with the API's text response,
or some step raised an exception with the given `str(e)`. -/
inductive Outcome where
  | success (api_response : String)
  | failure (error_msg : String)
deriving DecidableEq, Repr

/-- Whether an outcome is a failure (the `except` branch is taken). -/
def Outcome.isFailure : Outcome → Bool
  | .failure _ => true
  | .success _ => false

/-- Per-worker mutable locals of `worker_task`: the consecutive-error counter
(line 123) and the thread's current API handler (line 115 / line 177). -/
structure WorkerState where
  consecutive_errors : Nat
  api_handler : GeminiAPIHandler
deriving DecidableEq, Repr

/-- Observable side effects of one iteration of the worker loop, in program
order. `taskDone` and `putReq` are the queue operations; `apiCall` and
`writeResult` are the completed API invocation and `json.dump` of the
success path; `incCounter` is `completed_counter.increment()`; the two
sleep events carry their duration in seconds. -/
inductive Event where
  | taskDone
  | putReq (request : Request)
  | apiCall (request : Request)
  | writeResult (path : String) (record : ResultRecord)
  | incCounter
  | sleepBackoff (seconds : ℚ)
  | sleepCourtesy (seconds : ℚ)
deriving DecidableEq, Repr

/-- Whether the iteration falls through to the next `request_queue.get`
(`continue` / end of body) or leaves the `while True` loop (`break`). -/
inductive StepResult where
  | continueLoop
  | exitLoop
deriving DecidableEq, Repr

/-- Result of one iteration of the worker loop: the emitted event trace, the
updated worker locals, the key manager as the worker leaves it, and whether
the loop continues. -/
structure IterResult where
  events : List Event
  state : WorkerState
  keyman : APIKeyManager
  step : StepResult
deriving DecidableEq, Repr

/-- One iteration of the `while True` body of `worker_task` (lines 126-203)
for a dequeued `item` (`none` is the stop sentinel). `ex` abstracts
`os.path.exists`, `outcome` the run of the `try` block, and `rb rc` the two
`random.random()` draws of lines 198 and 203. Python runs the `finally`
block (`task_done` then the courtesy sleep) on every exit from the `try` of
line 141, including the `continue` of the skip branch and the `break` of the
fatal-drop branch, so those two branches emit `taskDone` twice. -/
def worker_iteration (output_dir : String) (km : APIKeyManager) (st : WorkerState)
    (item : Option Request) (ex : String → Bool) (outcome : Outcome)
    (rb rc : ℚ) : IterResult :=
  match item with
  | none => ⟨[.taskDone], st, km, .exitLoop⟩
  | some request =>
    let image_id := image_id_of request.image_path
    let file := generated_response_file output_dir image_id
    if ex file then
      ⟨[.taskDone, .taskDone, .sleepCourtesy (0.05 + 0.05 * rc)], st, km, .continueLoop⟩
    else
      match outcome with
      | .success resp =>
        ⟨[.apiCall request,
          .writeResult file (call_gemini_api st.api_handler request resp),
          .incCounter, .taskDone, .sleepCourtesy (0.05 + 0.05 * rc)],
         ⟨0, st.api_handler⟩, km, .continueLoop⟩
      | .failure msg =>
        if isQuotaError msg then
          ⟨[.putReq request, .sleepBackoff (4 + 4 * rb),
            .taskDone, .sleepCourtesy (0.05 + 0.05 * rc)],
           ⟨st.consecutive_errors, km.create_api_handler⟩, km, .continueLoop⟩
        else if st.consecutive_errors + 1 ≥ max_consecutive_errors then
          ⟨[.taskDone, .taskDone, .sleepCourtesy (0.05 + 0.05 * rc)],
           ⟨st.consecutive_errors + 1, st.api_handler⟩, km, .exitLoop⟩
        else
          ⟨[.putReq request, .sleepBackoff (4 + 4 * rb),
            .taskDone, .sleepCourtesy (0.05 + 0.05 * rc)],
           ⟨st.consecutive_errors + 1, st.api_handler⟩, km, .continueLoop⟩

/-- One step of the seeding loop of lines 239-246: enqueue the request
unless its response file already exists, else count it as skipped. -/
def seed_step (output_dir : String) (ex : String → Bool)
    (acc : List Request × Nat) (req : Request) : List Request × Nat :=
  let image_id := image_id_of req.image_path
  let file := generated_response_file output_dir image_id
  if ex file then (acc.1, acc.2 + 1) else (acc.1 ++ [req], acc.2)

/-- The queue seeding loop of lines 237-247 over the whole request list.
Returns the queue contents in FIFO order and the skip count. -/
def seed_queue (output_dir : String) (api_requests : List Request)
    (ex : String → Bool) : List Request × Nat :=
  api_requests.foldl (seed_step output_dir ex) ([], 0)

/-- Number of acknowledgments in a trace. -/
def countTaskDone (l : List Event) : Nat :=
  l.countP (fun e => match e with | .taskDone => true | _ => false)

/-- Net effect of one event on the queue's count of unfinished tasks. -/
def queueDelta : Event → Int
  | .putReq _ => 1
  | .taskDone => -1
  | _ => 0

/-- Net change of the unfinished-task count over every prefix of a trace. -/
def prefixNetChanges (l : List Event) : List Int :=
  (List.range (l.length + 1)).map (fun k => ((l.take k).map queueDelta).sum)

/-- Replays the queue operations of a trace against the queue's count of
unfinished tasks, as `queue.Queue` maintains it: `put` increments it,
`task_done` decrements it and raises `ValueError` (modelled as `none`) when
it is already zero. -/
def runQueueOps : Nat → List Event → Option Nat
  | n, [] => some n
  | n, e :: rest =>
    match e with
    | .taskDone => if n = 0 then none else runQueueOps (n - 1) rest
    | .putReq _ => runQueueOps (n + 1) rest
    | _ => runQueueOps n rest

/-- Evolution of the worker locals over a list of successive attempt
outcomes for the same re-enqueued request (the response file absent each
time): folds `worker_iteration` over the outcomes. -/
def run_attempts (output_dir : String) (km : APIKeyManager) (request : Request)
    (ex : String → Bool) (rb rc : ℚ) : WorkerState → List Outcome → WorkerState
  | st, [] => st
  | st, oc :: rest =>
    run_attempts output_dir km request ex rb rc
      (worker_iteration output_dir km st (some request) ex oc rb rc).state rest

/-- Number of outcomes in a list that count toward the fatal ceiling:
failures whose message matches no quota phrase. -/
def countTowardCeiling (l : List Outcome) : Nat :=
  l.countP (fun oc => match oc with
    | .failure msg => !isQuotaError msg
    | .success _ => false)

/-- Iterated `get_next_api_key`: the manager after `k` calls. -/
def iter_next_key (m : APIKeyManager) : Nat → APIKeyManager
  | 0 => m
  | Nat.succ k => ((iter_next_key m k).get_next_api_key).2

/-- The key returned by the `i`-th call to `get_next_api_key`, counting
from `i = 1`. -/
def nth_key_call (m : APIKeyManager) (i : Nat) : String :=
  ((iter_next_key m (i - 1)).get_next_api_key).1

/-- Sample request used to evaluate the model at concrete inputs. -/
def sampleRequest : Request :=
  { image_id := "PMC123_fig1"
    image_path := "images/PMC123_fig1.jpg"
    prompt := "Describe the lesion."
    image_primary_label := "eczema"
    image_secondary_label := "mild" }

/-- Sample credential pool with three keys, active key `"k1"`. -/
def sampleKM : APIKeyManager := APIKeyManager.init "k1" ["k2", "k3"]

/-- The handler a worker starts with (line 115). -/
def sampleHandler : GeminiAPIHandler := sampleKM.create_api_handler

/-- Existence oracle of an empty result store. -/
def noFile : String → Bool := fun _ => false

/-- Existence oracle of a result store that already has every file. -/
def hasFile : String → Bool := fun _ => true

/-- The output directory of the configured run. -/
def out0 : String := "api_results/biomedica_500_750"

/-- Branch lemma: dequeuing the stop sentinel acknowledges it once and
leaves the loop (lines 136-139). -/
theorem worker_iteration_sentinel (output_dir : String) (km : APIKeyManager)
    (st : WorkerState) (ex : String → Bool) (oc : Outcome) (rb rc : ℚ) :
    worker_iteration output_dir km st none ex oc rb rc
      = ⟨[.taskDone], st, km, .exitLoop⟩ := rfl

/-- Branch lemma: the skip branch (lines 146-151 plus the `finally`). -/
theorem worker_iteration_skip (output_dir : String) (km : APIKeyManager)
    (st : WorkerState) (request : Request) (ex : String → Bool) (oc : Outcome) (rb rc : ℚ)
    (hex : ex (generated_response_file output_dir (image_id_of request.image_path)) = true) :
    worker_iteration output_dir km st (some request) ex oc rb rc
      = ⟨[.taskDone, .taskDone, .sleepCourtesy (0.05 + 0.05 * rc)],
         st, km, .continueLoop⟩ := by
  simp [worker_iteration, hex]

/-- Branch lemma: the success branch (lines 153-164 plus the `finally`). -/
theorem worker_iteration_success (output_dir : String) (km : APIKeyManager)
    (st : WorkerState) (request : Request) (ex : String → Bool) (resp : String) (rb rc : ℚ)
    (hex : ex (generated_response_file output_dir (image_id_of request.image_path)) = false) :
    worker_iteration output_dir km st (some request) ex (.success resp) rb rc
      = ⟨[.apiCall request,
          .writeResult (generated_response_file output_dir (image_id_of request.image_path))
            (call_gemini_api st.api_handler request resp),
          .incCounter, .taskDone, .sleepCourtesy (0.05 + 0.05 * rc)],
         ⟨0, st.api_handler⟩, km, .continueLoop⟩ := by
  simp [worker_iteration, hex]

/-- Branch lemma: the quota-failure branch (lines 173-183, the backoff of
line 198 and the `finally`). -/
theorem worker_iteration_quota (output_dir : String) (km : APIKeyManager)
    (st : WorkerState) (request : Request) (ex : String → Bool) (msg : String) (rb rc : ℚ)
    (hex : ex (generated_response_file output_dir (image_id_of request.image_path)) = false)
    (hq : isQuotaError msg = true) :
    worker_iteration output_dir km st (some request) ex (.failure msg) rb rc
      = ⟨[.putReq request, .sleepBackoff (4 + 4 * rb),
          .taskDone, .sleepCourtesy (0.05 + 0.05 * rc)],
         ⟨st.consecutive_errors, km.create_api_handler⟩, km, .continueLoop⟩ := by
  simp [worker_iteration, hex, hq]

/-- Branch lemma: the fatal-drop branch (lines 184-193 plus the `finally`). -/
theorem worker_iteration_drop (output_dir : String) (km : APIKeyManager)
    (st : WorkerState) (request : Request) (ex : String → Bool) (msg : String) (rb rc : ℚ)
    (hex : ex (generated_response_file output_dir (image_id_of request.image_path)) = false)
    (hq : isQuotaError msg = false)
    (hce : st.consecutive_errors + 1 ≥ max_consecutive_errors) :
    worker_iteration output_dir km st (some request) ex (.failure msg) rb rc
      = ⟨[.taskDone, .taskDone, .sleepCourtesy (0.05 + 0.05 * rc)],
         ⟨st.consecutive_errors + 1, st.api_handler⟩, km, .exitLoop⟩ := by
  simp [worker_iteration, hex, hq, hce]

/-- Branch lemma: the non-quota retry branch (lines 184-196, the backoff of
line 198 and the `finally`). -/
theorem worker_iteration_retry (output_dir : String) (km : APIKeyManager)
    (st : WorkerState) (request : Request) (ex : String → Bool) (msg : String) (rb rc : ℚ)
    (hex : ex (generated_response_file output_dir (image_id_of request.image_path)) = false)
    (hq : isQuotaError msg = false)
    (hce : st.consecutive_errors + 1 < max_consecutive_errors) :
    worker_iteration output_dir km st (some request) ex (.failure msg) rb rc
      = ⟨[.putReq request, .sleepBackoff (4 + 4 * rb),
          .taskDone, .sleepCourtesy (0.05 + 0.05 * rc)],
         ⟨st.consecutive_errors + 1, st.api_handler⟩, km, .continueLoop⟩ := by
  have hce' : ¬ st.consecutive_errors + 1 ≥ max_consecutive_errors := by omega
  simp [worker_iteration, hex, hq, hce']

/-- Claim C1: the claim says every dequeued item is acknowledged exactly
once. The code violates it: Python runs the `finally` block of line 200 on
the `continue` of the skip branch and on the `break` of the fatal-drop
branch, so after the explicit `task_done()` of line 150 (skip) or line 192
(drop) a second `task_done()` runs in the `finally`. Evaluating the worker
iteration: a skipped item and a dropped item are each acknowledged twice,
while a successfully processed item and a stop sentinel are acknowledged
once. -/
theorem skip_and_drop_acknowledged_twice :
    countTaskDone (worker_iteration out0 sampleKM ⟨0, sampleHandler⟩
      (some sampleRequest) hasFile (.success "ok") (1/2) (1/2)).events = 2 ∧
    countTaskDone (worker_iteration out0 sampleKM ⟨99, sampleHandler⟩
      (some sampleRequest) noFile (.failure "unreadable image") (1/2) (1/2)).events = 2 ∧
    countTaskDone (worker_iteration out0 sampleKM ⟨0, sampleHandler⟩
      (some sampleRequest) noFile (.success "ok") (1/2) (1/2)).events = 1 ∧
    countTaskDone (worker_iteration out0 sampleKM ⟨0, sampleHandler⟩
      none noFile (.success "ok") (1/2) (1/2)).events = 1 :=
  ⟨rfl, rfl, rfl, rfl⟩

/-- Claim C2: on the fatal-drop path (a non-quota failure with the
consecutive-error counter at 99, reaching the ceiling of 100) the worker
does exit its loop, re-enqueues nothing and acknowledges the item — but the
claim's "no exception escapes the worker loop" fails on the code: the drop
branch acknowledges twice (line 192 and the `finally` of line 201), so when
the dropped job was the queue's only unfinished item the second
`task_done()` finds the unfinished count at zero and `queue.Queue` raises
`ValueError` out of the `finally`, which escapes the loop. `runQueueOps 1`
replays the trace from an unfinished count of 1 and hits that error
(`none`). -/
theorem fatal_drop_trace_raises_on_second_ack :
    (worker_iteration out0 sampleKM ⟨99, sampleHandler⟩
      (some sampleRequest) noFile (.failure "unreadable image") (1/2) (1/2)).step
        = StepResult.exitLoop ∧
    (∀ r, Event.putReq r ∉ (worker_iteration out0 sampleKM ⟨99, sampleHandler⟩
      (some sampleRequest) noFile (.failure "unreadable image") (1/2) (1/2)).events) ∧
    Event.taskDone ∈ (worker_iteration out0 sampleKM ⟨99, sampleHandler⟩
      (some sampleRequest) noFile (.failure "unreadable image") (1/2) (1/2)).events ∧
    runQueueOps 1 (worker_iteration out0 sampleKM ⟨99, sampleHandler⟩
      (some sampleRequest) noFile (.failure "unreadable image") (1/2) (1/2)).events
        = none := by
  have hev : (worker_iteration out0 sampleKM ⟨99, sampleHandler⟩
      (some sampleRequest) noFile (.failure "unreadable image") (1/2) (1/2)).events
      = [Event.taskDone, Event.taskDone, Event.sleepCourtesy (0.05 + 0.05 * (1/2))] := rfl
  refine ⟨rfl, ?_, ?_, rfl⟩
  · intro r
    rw [hev]
    simp
  · rw [hev]
    simp

/-- Claim C3: a dequeued job whose attempt fails with a message containing a
quota phrase is re-enqueued identically, the consecutive-error counter is
left unchanged, the worker's handler is refreshed from the credential pool's
`create_api_handler`, and the iteration falls through to the next fetch
(the job is never dropped, whatever the counter's value). -/
theorem quota_failure_retried_losslessly :
    ∀ (output_dir : String) (km : APIKeyManager) (st : WorkerState)
      (ex : String → Bool) (request : Request) (msg : String) (rb rc : ℚ),
    ex (generated_response_file output_dir (image_id_of request.image_path)) = false →
    isQuotaError msg = true →
    Event.putReq request ∈
      (worker_iteration output_dir km st (some request) ex (.failure msg) rb rc).events ∧
    (worker_iteration output_dir km st (some request) ex
      (.failure msg) rb rc).state.consecutive_errors = st.consecutive_errors ∧
    (worker_iteration output_dir km st (some request) ex
      (.failure msg) rb rc).state.api_handler = km.create_api_handler ∧
    (worker_iteration output_dir km st (some request) ex
      (.failure msg) rb rc).step = StepResult.continueLoop := by
  intro output_dir km st ex request msg rb rc hex hq
  rw [worker_iteration_quota output_dir km st request ex msg rb rc hex hq]
  refine ⟨?_, rfl, rfl, rfl⟩
  simp

/-- Witness for C3: a concrete quota failure with the counter at 5. -/
theorem quota_failure_retried_losslessly_witness :
    Event.putReq sampleRequest ∈
      (worker_iteration out0 sampleKM ⟨5, sampleHandler⟩ (some sampleRequest) noFile
        (.failure "429 RESOURCE_EXHAUSTED") (1/2) (1/2)).events ∧
    (worker_iteration out0 sampleKM ⟨5, sampleHandler⟩ (some sampleRequest) noFile
      (.failure "429 RESOURCE_EXHAUSTED") (1/2) (1/2)).state.consecutive_errors = 5 ∧
    (worker_iteration out0 sampleKM ⟨5, sampleHandler⟩ (some sampleRequest) noFile
      (.failure "429 RESOURCE_EXHAUSTED") (1/2) (1/2)).state.api_handler
        = sampleKM.create_api_handler ∧
    (worker_iteration out0 sampleKM ⟨5, sampleHandler⟩ (some sampleRequest) noFile
      (.failure "429 RESOURCE_EXHAUSTED") (1/2) (1/2)).step = StepResult.continueLoop :=
  quota_failure_retried_losslessly out0 sampleKM ⟨5, sampleHandler⟩ noFile sampleRequest
    "429 RESOURCE_EXHAUSTED" (1/2) (1/2) rfl rfl

/-- Helper: a request whose response file exists is never added by the
seeding fold, whatever the accumulator. -/
theorem seed_foldl_not_mem (output_dir : String) (ex : String → Bool) :
    ∀ (reqs : List Request) (acc : List Request × Nat) (req : Request),
    ex (generated_response_file output_dir (image_id_of req.image_path)) = true →
    req ∉ acc.1 → req ∉ (reqs.foldl (seed_step output_dir ex) acc).1 := by
  intro reqs
  induction reqs with
  | nil => intro acc req _ hacc; simpa using hacc
  | cons r rest ih =>
    intro acc req h hacc
    simp only [List.foldl_cons]
    apply ih _ _ h
    unfold seed_step
    by_cases hr : ex (generated_response_file output_dir (image_id_of r.image_path)) = true
    · simpa [hr] using hacc
    · have hr' : ex (generated_response_file output_dir (image_id_of r.image_path)) = false := by
        simpa using hr
      have hne : req ≠ r := by
        intro hcontra
        rw [hcontra] at h
        rw [h] at hr'
        cases hr'
      simp [hr', hacc, hne]

/-- Helper: the skip counter of the seeding fold counts exactly the requests
whose response file exists. -/
theorem seed_foldl_count (output_dir : String) (ex : String → Bool) :
    ∀ (reqs : List Request) (acc : List Request × Nat),
    (reqs.foldl (seed_step output_dir ex) acc).2
      = acc.2 + reqs.countP
          (fun r => ex (generated_response_file output_dir (image_id_of r.image_path))) := by
  intro reqs
  induction reqs with
  | nil => intro acc; simp
  | cons r rest ih =>
    intro acc
    simp only [List.foldl_cons, List.countP_cons]
    rw [ih]
    unfold seed_step
    by_cases hr : ex (generated_response_file output_dir (image_id_of r.image_path)) = true
    · simp [hr]; omega
    · have hr' : ex (generated_response_file output_dir (image_id_of r.image_path)) = false := by
        simpa using hr
      simp [hr']

/-- Claim C4: a job whose response file already exists is never enqueued by
the seeding loop (it is counted as skipped), and a worker that dequeues a
job whose response file exists performs no API invocation and no result
write: it acknowledges the item and falls through to the next fetch. -/
theorem skip_property :
    ∀ (output_dir : String) (reqs : List Request) (ex : String → Bool) (req : Request)
      (km : APIKeyManager) (st : WorkerState) (oc : Outcome) (rb rc : ℚ),
    ex (generated_response_file output_dir (image_id_of req.image_path)) = true →
    req ∉ (seed_queue output_dir reqs ex).1 ∧
    (seed_queue output_dir reqs ex).2
      = reqs.countP
          (fun r => ex (generated_response_file output_dir (image_id_of r.image_path))) ∧
    (∀ r, Event.apiCall r ∉
      (worker_iteration output_dir km st (some req) ex oc rb rc).events) ∧
    (∀ p rec, Event.writeResult p rec ∉
      (worker_iteration output_dir km st (some req) ex oc rb rc).events) ∧
    Event.taskDone ∈ (worker_iteration output_dir km st (some req) ex oc rb rc).events ∧
    (worker_iteration output_dir km st (some req) ex oc rb rc).step
      = StepResult.continueLoop := by
  intro output_dir reqs ex req km st oc rb rc hex
  have hseed := seed_foldl_not_mem output_dir ex reqs ([], 0) req hex (by simp)
  have hcount := seed_foldl_count output_dir ex reqs ([], 0)
  rw [worker_iteration_skip output_dir km st req ex oc rb rc hex]
  refine ⟨hseed, by simpa using hcount, ?_, ?_, by simp, rfl⟩
  · intro r; simp
  · intro p rec; simp

/-- Witness for C4: a one-request batch whose response file already exists
is fully skipped and its dequeue acknowledges without an API call. -/
theorem skip_property_witness :
    sampleRequest ∉ (seed_queue out0 [sampleRequest] hasFile).1 ∧
    (seed_queue out0 [sampleRequest] hasFile).2
      = [sampleRequest].countP
          (fun r => hasFile (generated_response_file out0 (image_id_of r.image_path))) ∧
    (∀ r, Event.apiCall r ∉
      (worker_iteration out0 sampleKM ⟨0, sampleHandler⟩ (some sampleRequest) hasFile
        (.success "ok") (1/2) (1/2)).events) ∧
    (∀ p rec, Event.writeResult p rec ∉
      (worker_iteration out0 sampleKM ⟨0, sampleHandler⟩ (some sampleRequest) hasFile
        (.success "ok") (1/2) (1/2)).events) ∧
    Event.taskDone ∈ (worker_iteration out0 sampleKM ⟨0, sampleHandler⟩ (some sampleRequest)
      hasFile (.success "ok") (1/2) (1/2)).events ∧
    (worker_iteration out0 sampleKM ⟨0, sampleHandler⟩ (some sampleRequest) hasFile
      (.success "ok") (1/2) (1/2)).step = StepResult.continueLoop :=
  skip_property out0 [sampleRequest] hasFile sampleRequest sampleKM ⟨0, sampleHandler⟩
    (.success "ok") (1/2) (1/2) rfl

/-- Helper: no branch of the worker loop writes to the key manager — in
particular the quota branch (line 177) only calls `create_api_handler`,
which reads the active key without reassigning it. -/
theorem worker_iteration_keyman (output_dir : String) (km : APIKeyManager)
    (st : WorkerState) (item : Option Request) (ex : String → Bool) (oc : Outcome)
    (rb rc : ℚ) :
    (worker_iteration output_dir km st item ex oc rb rc).keyman = km := by
  cases item with
  | none => rfl
  | some request =>
    by_cases hex : ex (generated_response_file output_dir (image_id_of request.image_path))
        = true
    · rw [worker_iteration_skip output_dir km st request ex oc rb rc hex]
    · have hex' : ex (generated_response_file output_dir (image_id_of request.image_path))
          = false := by simpa using hex
      cases oc with
      | success resp => rw [worker_iteration_success output_dir km st request ex resp rb rc hex']
      | failure msg =>
        by_cases hq : isQuotaError msg = true
        · rw [worker_iteration_quota output_dir km st request ex msg rb rc hex' hq]
        · have hq' : isQuotaError msg = false := by simpa using hq
          by_cases hce : st.consecutive_errors + 1 ≥ max_consecutive_errors
          · rw [worker_iteration_drop output_dir km st request ex msg rb rc hex' hq' hce]
          · rw [worker_iteration_retry output_dir km st request ex msg rb rc hex' hq'
              (by omega)]

/-- Counterexample to claim C5: with a three-key pool whose active key is
`"k1"`, a worker that handles a quota failure leaves the key manager — in
particular its active key field — completely unchanged, and the fresh
handler it mints is still bound to `"k1"`; the active key is never
reassigned to a different key. -/
theorem quota_refresh_keeps_first_key :
    sampleKM.api_keys = ["k1", "k2", "k3"] ∧
    sampleKM.api_key = "k1" ∧
    isQuotaError "429 RESOURCE_EXHAUSTED" = true ∧
    (worker_iteration out0 sampleKM ⟨0, sampleHandler⟩ (some sampleRequest) noFile
      (.failure "429 RESOURCE_EXHAUSTED") (1/2) (1/2)).keyman = sampleKM ∧
    (worker_iteration out0 sampleKM ⟨0, sampleHandler⟩ (some sampleRequest) noFile
      (.failure "429 RESOURCE_EXHAUSTED") (1/2) (1/2)).keyman.api_key = "k1" ∧
    (worker_iteration out0 sampleKM ⟨0, sampleHandler⟩ (some sampleRequest) noFile
      (.failure "429 RESOURCE_EXHAUSTED") (1/2) (1/2)).state.api_handler.api_key = "k1" :=
  ⟨rfl, rfl, rfl, rfl, rfl, rfl⟩

/-- Claim C5 as amended: every handler minted by `create_api_handler` is
bound to the pool's single active key field (and shared model name); that
field is initialized to the first key of the list and is never reassigned —
no branch of the worker loop, the quota branch included, writes to the key
manager. -/
theorem create_handler_mints_from_unchanged_active_key :
    ∀ (output_dir k0 : String) (rest : List String) (km : APIKeyManager)
      (st : WorkerState) (item : Option Request) (ex : String → Bool) (oc : Outcome)
      (rb rc : ℚ),
    (APIKeyManager.create_api_handler km).api_key = km.api_key ∧
    (APIKeyManager.create_api_handler km).model_name = km.model_name ∧
    (worker_iteration output_dir km st item ex oc rb rc).keyman = km ∧
    (APIKeyManager.init k0 rest).api_key = k0 := by
  intro output_dir k0 rest km st item ex oc rb rc
  exact ⟨rfl, rfl, worker_iteration_keyman output_dir km st item ex oc rb rc, rfl⟩

/-- Claim C6: on a successful attempt the iteration performs exactly one
result write, at the path derived deterministically from the job's file id
(`{output_dir}/{image_id}_response.json`, injective in the id), and the
record written is the full seven-field result built by `call_gemini_api`. -/
theorem result_write_single_and_complete :
    ∀ (output_dir : String) (km : APIKeyManager) (st : WorkerState) (ex : String → Bool)
      (request : Request) (resp : String) (rb rc : ℚ) (a b : String),
    (ex (generated_response_file output_dir (image_id_of request.image_path)) = false →
      (worker_iteration output_dir km st (some request) ex (.success resp) rb rc).events
        = [Event.apiCall request,
           Event.writeResult (generated_response_file output_dir (image_id_of request.image_path))
             (call_gemini_api st.api_handler request resp),
           Event.incCounter, Event.taskDone, Event.sleepCourtesy (0.05 + 0.05 * rc)]) ∧
    (generated_response_file output_dir a = generated_response_file output_dir b → a = b) ∧
    call_gemini_api st.api_handler request resp =
      { image_id := request.image_id
        image_path := request.image_path
        image_primary_label := request.image_primary_label
        image_secondary_label := request.image_secondary_label
        api_response := resp
        prompt := request.prompt
        model_name := st.api_handler.model_name } := by
  intro output_dir km st ex request resp rb rc a b
  refine ⟨?_, ?_, rfl⟩
  · intro hex
    rw [worker_iteration_success output_dir km st request ex resp rb rc hex]
  · intro h
    have hd := congrArg String.data h
    simp only [generated_response_file, String.data_append, List.append_assoc] at hd
    have h1 := List.append_cancel_left hd
    have h2 := List.append_cancel_left h1
    exact String.ext (List.append_cancel_right h2)

/-- Witness for C6: one successful attempt on the sample request writes the
full record at the derived path, and distinct ids give distinct paths. -/
theorem result_write_single_and_complete_witness :
    (worker_iteration out0 sampleKM ⟨0, sampleHandler⟩ (some sampleRequest) noFile
      (.success "ok") (1/2) (1/2)).events
      = [Event.apiCall sampleRequest,
         Event.writeResult (generated_response_file out0 (image_id_of sampleRequest.image_path))
           (call_gemini_api sampleHandler sampleRequest "ok"),
         Event.incCounter, Event.taskDone, Event.sleepCourtesy (0.05 + 0.05 * (1/2))] ∧
    ("PMC123_fig1" : String) = "PMC123_fig1" :=
  ⟨(result_write_single_and_complete out0 sampleKM ⟨0, sampleHandler⟩ noFile sampleRequest
      "ok" (1/2) (1/2) "x" "y").1 rfl,
   (result_write_single_and_complete out0 sampleKM ⟨0, sampleHandler⟩ noFile sampleRequest
      "ok" (1/2) (1/2) "PMC123_fig1" "PMC123_fig1").2.1 rfl⟩

/-- Helper: every backoff sleep in any iteration trace is the line-198
draw `4 + 4 * random.random()`. -/
theorem backoff_sleep_value (output_dir : String) (km : APIKeyManager)
    (st : WorkerState) (item : Option Request) (ex : String → Bool) (oc : Outcome)
    (rb rc : ℚ) (d : ℚ)
    (hd : Event.sleepBackoff d ∈ (worker_iteration output_dir km st item ex oc rb rc).events) :
    d = 4 + 4 * rb := by
  cases item with
  | none => rw [worker_iteration_sentinel] at hd; simp at hd
  | some request =>
    by_cases hex : ex (generated_response_file output_dir (image_id_of request.image_path))
        = true
    · rw [worker_iteration_skip output_dir km st request ex oc rb rc hex] at hd
      simp at hd
    · have hex' : ex (generated_response_file output_dir (image_id_of request.image_path))
          = false := by simpa using hex
      cases oc with
      | success resp =>
        rw [worker_iteration_success output_dir km st request ex resp rb rc hex'] at hd
        simp at hd
      | failure msg =>
        by_cases hq : isQuotaError msg = true
        · rw [worker_iteration_quota output_dir km st request ex msg rb rc hex' hq] at hd
          simp at hd
          exact hd
        · have hq' : isQuotaError msg = false := by simpa using hq
          by_cases hce : st.consecutive_errors + 1 ≥ max_consecutive_errors
          · rw [worker_iteration_drop output_dir km st request ex msg rb rc hex' hq' hce] at hd
            simp at hd
          · rw [worker_iteration_retry output_dir km st request ex msg rb rc hex' hq'
              (by omega)] at hd
            simp at hd
            exact hd

/-- Helper: every courtesy sleep in any iteration trace is the line-203
draw `0.05 + 0.05 * random.random()`. -/
theorem courtesy_sleep_value (output_dir : String) (km : APIKeyManager)
    (st : WorkerState) (item : Option Request) (ex : String → Bool) (oc : Outcome)
    (rb rc : ℚ) (d : ℚ)
    (hd : Event.sleepCourtesy d ∈ (worker_iteration output_dir km st item ex oc rb rc).events) :
    d = 0.05 + 0.05 * rc := by
  cases item with
  | none => rw [worker_iteration_sentinel] at hd; simp at hd
  | some request =>
    by_cases hex : ex (generated_response_file output_dir (image_id_of request.image_path))
        = true
    · rw [worker_iteration_skip output_dir km st request ex oc rb rc hex] at hd
      simp at hd
      exact hd
    · have hex' : ex (generated_response_file output_dir (image_id_of request.image_path))
          = false := by simpa using hex
      cases oc with
      | success resp =>
        rw [worker_iteration_success output_dir km st request ex resp rb rc hex'] at hd
        simp at hd
        exact hd
      | failure msg =>
        by_cases hq : isQuotaError msg = true
        · rw [worker_iteration_quota output_dir km st request ex msg rb rc hex' hq] at hd
          simp at hd
          exact hd
        · have hq' : isQuotaError msg = false := by simpa using hq
          by_cases hce : st.consecutive_errors + 1 ≥ max_consecutive_errors
          · rw [worker_iteration_drop output_dir km st request ex msg rb rc hex' hq' hce] at hd
            simp at hd
            exact hd
          · rw [worker_iteration_retry output_dir km st request ex msg rb rc hex' hq'
              (by omega)] at hd
            simp at hd
            exact hd

/-- Claim C7: with both random draws in `[0, 1)`, every backoff sleep in an
iteration trace lasts between 4 (inclusive) and 8 (exclusive) seconds, and
every courtesy sleep between 0.05 (inclusive) and 0.10 (exclusive)
seconds. -/
theorem sleep_durations_bounded :
    ∀ (output_dir : String) (km : APIKeyManager) (st : WorkerState) (item : Option Request)
      (ex : String → Bool) (oc : Outcome) (rb rc : ℚ),
    0 ≤ rb → rb < 1 → 0 ≤ rc → rc < 1 →
    (∀ d : ℚ, Event.sleepBackoff d ∈
        (worker_iteration output_dir km st item ex oc rb rc).events →
      4 ≤ d ∧ d < 8) ∧
    (∀ d : ℚ, Event.sleepCourtesy d ∈
        (worker_iteration output_dir km st item ex oc rb rc).events →
      0.05 ≤ d ∧ d < 0.10) := by
  intro output_dir km st item ex oc rb rc hb0 hb1 hc0 hc1
  constructor
  · intro d hd
    rw [backoff_sleep_value output_dir km st item ex oc rb rc d hd]
    constructor <;> linarith
  · intro d hd
    rw [courtesy_sleep_value output_dir km st item ex oc rb rc d hd]
    constructor <;> linarith

/-- Witness for C7: with both draws at one half, the retry backoff lasts 6
seconds and the courtesy delay 0.075 seconds, inside the claimed windows. -/
theorem sleep_durations_bounded_witness :
    ((4 : ℚ) ≤ 4 + 4 * (1/2) ∧ (4 + 4 * (1/2) : ℚ) < 8) ∧
    ((0.05 : ℚ) ≤ 0.05 + 0.05 * (1/2) ∧ (0.05 + 0.05 * (1/2) : ℚ) < 0.10) :=
  ⟨(sleep_durations_bounded out0 sampleKM ⟨0, sampleHandler⟩ (some sampleRequest) noFile
      (.failure "bad image") (1/2) (1/2) (by norm_num) (by norm_num) (by norm_num)
      (by norm_num)).1 (4 + 4 * (1/2))
    (by
      rw [worker_iteration_retry out0 sampleKM ⟨0, sampleHandler⟩ sampleRequest noFile
        "bad image" (1/2) (1/2) rfl rfl (by decide)]
      simp),
   (sleep_durations_bounded out0 sampleKM ⟨0, sampleHandler⟩ (some sampleRequest) noFile
      (.failure "bad image") (1/2) (1/2) (by norm_num) (by norm_num) (by norm_num)
      (by norm_num)).2 (0.05 + 0.05 * (1/2))
    (by
      rw [worker_iteration_retry out0 sampleKM ⟨0, sampleHandler⟩ sampleRequest noFile
        "bad image" (1/2) (1/2) rfl rfl (by decide)]
      simp)⟩

/-- Helper: iterating `get_next_api_key` never changes the key list. -/
theorem iter_next_key_api_keys (m : APIKeyManager) :
    ∀ k, (iter_next_key m k).api_keys = m.api_keys := by
  intro k
  induction k with
  | zero => rfl
  | succ k ih => simp [iter_next_key, APIKeyManager.get_next_api_key, ih]

/-- Helper: starting from cursor 0, after `k` calls to `get_next_api_key`
the cursor sits at `k % n`. -/
theorem iter_next_key_index (m : APIKeyManager) (h0 : m.key_index = 0) :
    ∀ k, (iter_next_key m k).key_index = k % m.api_keys.length := by
  intro k
  induction k with
  | zero => simpa [iter_next_key] using h0
  | succ k ih =>
    simp only [iter_next_key, APIKeyManager.get_next_api_key, iter_next_key_api_keys, ih]
    exact Nat.mod_add_mod k m.api_keys.length 1

/-- Helper: reading a list at every index of its range reproduces it. -/
theorem map_getD_range : ∀ (l : List String),
    (List.range l.length).map (fun j => l.getD j "") = l
  | [] => rfl
  | x :: xs => by
    rw [List.length_cons, List.range_succ_eq_map, List.map_cons, List.map_map]
    have hcomp : ((fun j => (x :: xs).getD j "") ∘ Nat.succ) = fun j => xs.getD j "" := by
      funext j
      simp
    rw [hcomp, map_getD_range xs]
    simp

/-- Claim C8: with the cursor at 0 on a pool of `n` keys, the `i`-th call
to `get_next_api_key` (counting from 1) returns the key at index
`(i - 1) % n`; in particular the first `n` calls return the keys in order
(every key exactly once) and the `(n + 1)`-th call wraps to the first
key. -/
theorem round_robin_next_key :
    ∀ (m : APIKeyManager) (i : Nat),
    m.key_index = 0 → 0 < m.api_keys.length → 1 ≤ i →
    nth_key_call m i = m.api_keys.getD ((i - 1) % m.api_keys.length) "" ∧
    (List.range m.api_keys.length).map (fun j => nth_key_call m (j + 1)) = m.api_keys ∧
    nth_key_call m (m.api_keys.length + 1) = m.api_keys.getD 0 "" := by
  intro m i h0 _hn _
  have hcall : ∀ k : Nat, nth_key_call m (k + 1)
      = m.api_keys.getD (k % m.api_keys.length) "" := by
    intro k
    show ((iter_next_key m (k + 1 - 1)).get_next_api_key).1
      = m.api_keys.getD (k % m.api_keys.length) ""
    simp only [Nat.add_sub_cancel, APIKeyManager.get_next_api_key,
      iter_next_key_api_keys, iter_next_key_index m h0]
  refine ⟨?_, ?_, ?_⟩
  · have hi := hcall (i - 1)
    rwa [Nat.sub_add_cancel (by omega)] at hi
  · have : (List.range m.api_keys.length).map (fun j => nth_key_call m (j + 1))
        = (List.range m.api_keys.length).map (fun j => m.api_keys.getD j "") := by
      apply List.map_congr_left
      intro j hj
      rw [hcall j, Nat.mod_eq_of_lt (List.mem_range.mp hj)]
    rw [this, map_getD_range]
  · rw [hcall m.api_keys.length, Nat.mod_self]

/-- Witness for C8: on the three-key sample pool, the fifth call returns
the key at index `(5 - 1) % 3 = 1`, the first three calls return the three
keys in order, and the fourth call wraps to the first key. -/
theorem round_robin_next_key_witness :
    nth_key_call sampleKM 5 = sampleKM.api_keys.getD ((5 - 1) % sampleKM.api_keys.length) "" ∧
    (List.range sampleKM.api_keys.length).map (fun j => nth_key_call sampleKM (j + 1))
      = sampleKM.api_keys ∧
    nth_key_call sampleKM (sampleKM.api_keys.length + 1) = sampleKM.api_keys.getD 0 "" :=
  round_robin_next_key sampleKM 5 rfl (by decide) (by decide)

/-- Claim C9: on every retried failure (quota, or non-quota below the
ceiling) the re-enqueue of line 183/196 precedes the acknowledgment of the
`finally` at line 201: the trace splits as `pre ++ taskDone :: post` with
the `put` in `pre` and no acknowledgment in `pre`, and the net change of
the queue's unfinished-task count over every prefix of the trace is
non-negative — the count never dips below its value at dequeue time, so a
`join` waiting on this item cannot be released while the retry is owed. -/
theorem retry_put_before_ack :
    ∀ (output_dir : String) (km : APIKeyManager) (st : WorkerState) (ex : String → Bool)
      (request : Request) (msg : String) (rb rc : ℚ),
    ex (generated_response_file output_dir (image_id_of request.image_path)) = false →
    (isQuotaError msg = true ∨ st.consecutive_errors + 1 < max_consecutive_errors) →
    ∃ pre post,
      (worker_iteration output_dir km st (some request) ex (.failure msg) rb rc).events
        = pre ++ Event.taskDone :: post ∧
      Event.putReq request ∈ pre ∧
      Event.taskDone ∉ pre ∧
      ∀ x ∈ prefixNetChanges
        ((worker_iteration output_dir km st (some request) ex (.failure msg) rb rc).events),
        0 ≤ x := by
  intro output_dir km st ex request msg rb rc hex hretry
  have hev : (worker_iteration output_dir km st (some request) ex (.failure msg) rb rc).events
      = [Event.putReq request, Event.sleepBackoff (4 + 4 * rb),
         Event.taskDone, Event.sleepCourtesy (0.05 + 0.05 * rc)] := by
    by_cases hq : isQuotaError msg = true
    · rw [worker_iteration_quota output_dir km st request ex msg rb rc hex hq]
    · have hq' : isQuotaError msg = false := by simpa using hq
      have hce : st.consecutive_errors + 1 < max_consecutive_errors := by
        rcases hretry with h | h
        · exact absurd h hq
        · exact h
      rw [worker_iteration_retry output_dir km st request ex msg rb rc hex hq' hce]
  refine ⟨[Event.putReq request, Event.sleepBackoff (4 + 4 * rb)],
    [Event.sleepCourtesy (0.05 + 0.05 * rc)], ?_, by simp, by simp, ?_⟩
  · rw [hev]
    rfl
  · rw [hev]
    have hpc : prefixNetChanges
        [Event.putReq request, Event.sleepBackoff (4 + 4 * rb),
         Event.taskDone, Event.sleepCourtesy (0.05 + 0.05 * rc)]
        = [0, 1, 1, 0, 0] := rfl
    rw [hpc]
    intro x hx
    simp at hx
    rcases hx with rfl | rfl | rfl <;> norm_num

/-- Witness for C9: a concrete quota failure is re-put before it is
acknowledged. -/
theorem retry_put_before_ack_witness :
    ∃ pre post,
      (worker_iteration out0 sampleKM ⟨0, sampleHandler⟩ (some sampleRequest) noFile
        (.failure "429 RESOURCE_EXHAUSTED") (1/2) (1/2)).events
        = pre ++ Event.taskDone :: post ∧
      Event.putReq sampleRequest ∈ pre ∧
      Event.taskDone ∉ pre ∧
      ∀ x ∈ prefixNetChanges
        ((worker_iteration out0 sampleKM ⟨0, sampleHandler⟩ (some sampleRequest) noFile
          (.failure "429 RESOURCE_EXHAUSTED") (1/2) (1/2)).events),
        0 ≤ x :=
  retry_put_before_ack out0 sampleKM ⟨0, sampleHandler⟩ noFile sampleRequest
    "429 RESOURCE_EXHAUSTED" (1/2) (1/2) rfl (Or.inl rfl)

/-- Helper: the counter after a failed attempt — unchanged on a quota
match, incremented otherwise (both in the retry and the drop branch). -/
theorem failure_counter_step (output_dir : String) (km : APIKeyManager)
    (st : WorkerState) (ex : String → Bool) (request : Request) (msg : String) (rb rc : ℚ)
    (hex : ex (generated_response_file output_dir (image_id_of request.image_path)) = false) :
    (worker_iteration output_dir km st (some request) ex
      (.failure msg) rb rc).state.consecutive_errors
      = if isQuotaError msg then st.consecutive_errors else st.consecutive_errors + 1 := by
  by_cases hq : isQuotaError msg = true
  · rw [worker_iteration_quota output_dir km st request ex msg rb rc hex hq, if_pos hq]
  · have hq' : isQuotaError msg = false := by simpa using hq
    rw [if_neg hq]
    by_cases hce : st.consecutive_errors + 1 ≥ max_consecutive_errors
    · rw [worker_iteration_drop output_dir km st request ex msg rb rc hex hq' hce]
    · rw [worker_iteration_retry output_dir km st request ex msg rb rc hex hq' (by omega)]

/-- Helper: over any run of failed attempts the counter grows by exactly
the number of non-quota failures, whatever quota failures are
interleaved. -/
theorem run_attempts_counter (output_dir : String) (km : APIKeyManager) (request : Request)
    (ex : String → Bool) (rb rc : ℚ)
    (hex : ex (generated_response_file output_dir (image_id_of request.image_path)) = false) :
    ∀ (outcomes : List Outcome) (st : WorkerState),
    (∀ oc ∈ outcomes, oc.isFailure = true) →
    (run_attempts output_dir km request ex rb rc st outcomes).consecutive_errors
      = st.consecutive_errors + countTowardCeiling outcomes := by
  intro outcomes
  induction outcomes with
  | nil =>
    intro st _
    simp [run_attempts, countTowardCeiling]
  | cons oc rest ih =>
    intro st hall
    cases oc with
    | success r => simpa [Outcome.isFailure] using hall _ (List.mem_cons_self _ _)
    | failure msg =>
      simp only [run_attempts]
      rw [ih _ (fun o ho => hall o (List.mem_cons_of_mem _ ho)),
        failure_counter_step output_dir km st ex request msg rb rc hex]
      simp only [countTowardCeiling, List.countP_cons]
      by_cases hq : isQuotaError msg = true
      · simp [hq]
      · have hq' : isQuotaError msg = false := by simpa using hq
        simp [hq']
        omega

/-- Claim C10: a quota-matched failure leaves the consecutive-failure
counter unchanged, a success resets it to zero, a non-quota failure
increments it; consequently, over any run of failed attempts the counter
grows by exactly the number of non-quota failures — quota failures
interleaved between them are transparent, so non-quota failures still
accumulate toward the ceiling as if consecutive. -/
theorem quota_failures_transparent_to_ceiling :
    ∀ (output_dir : String) (km : APIKeyManager) (st : WorkerState) (ex : String → Bool)
      (request : Request) (msg resp : String) (outcomes : List Outcome) (rb rc : ℚ),
    ex (generated_response_file output_dir (image_id_of request.image_path)) = false →
    ((worker_iteration output_dir km st (some request) ex
        (.failure msg) rb rc).state.consecutive_errors
      = if isQuotaError msg then st.consecutive_errors else st.consecutive_errors + 1) ∧
    ((worker_iteration output_dir km st (some request) ex
        (.success resp) rb rc).state.consecutive_errors = 0) ∧
    ((∀ oc ∈ outcomes, oc.isFailure = true) →
      (run_attempts output_dir km request ex rb rc st outcomes).consecutive_errors
        = st.consecutive_errors + countTowardCeiling outcomes) := by
  intro output_dir km st ex request msg resp outcomes rb rc hex
  refine ⟨failure_counter_step output_dir km st ex request msg rb rc hex, ?_, ?_⟩
  · rw [worker_iteration_success output_dir km st request ex resp rb rc hex]
  · exact run_attempts_counter output_dir km request ex rb rc hex outcomes st

/-- Witness for C10: two non-quota failures separated by two quota failures
leave the counter at exactly 2. -/
theorem quota_failures_transparent_to_ceiling_witness :
    ((worker_iteration out0 sampleKM ⟨0, sampleHandler⟩ (some sampleRequest) noFile
        (.failure "429 RESOURCE_EXHAUSTED") (1/2) (1/2)).state.consecutive_errors
      = if isQuotaError "429 RESOURCE_EXHAUSTED" then (0 : Nat) else 0 + 1) ∧
    ((worker_iteration out0 sampleKM ⟨0, sampleHandler⟩ (some sampleRequest) noFile
        (.success "ok") (1/2) (1/2)).state.consecutive_errors = 0) ∧
    ((∀ oc ∈ [Outcome.failure "bad image", Outcome.failure "429 RESOURCE_EXHAUSTED",
        Outcome.failure "429 Resource has been exhausted it seems",
        Outcome.failure "disk error"], oc.isFailure = true) →
      (run_attempts out0 sampleKM sampleRequest noFile (1/2) (1/2) ⟨0, sampleHandler⟩
        [Outcome.failure "bad image", Outcome.failure "429 RESOURCE_EXHAUSTED",
         Outcome.failure "429 Resource has been exhausted it seems",
         Outcome.failure "disk error"]).consecutive_errors
        = 0 + countTowardCeiling [Outcome.failure "bad image",
            Outcome.failure "429 RESOURCE_EXHAUSTED",
            Outcome.failure "429 Resource has been exhausted it seems",
            Outcome.failure "disk error"]) :=
  quota_failures_transparent_to_ceiling out0 sampleKM ⟨0, sampleHandler⟩ noFile
    sampleRequest "429 RESOURCE_EXHAUSTED" "ok"
    [Outcome.failure "bad image", Outcome.failure "429 RESOURCE_EXHAUSTED",
     Outcome.failure "429 Resource has been exhausted it seems",
     Outcome.failure "disk error"] (1/2) (1/2) rfl

end DermaVQA
